import Mathlib

/-!
Verification of the instance-discovery and reconciliation core of NewKiAssist.

The definitions below are a shallow embedding of the discovery-related logic
of the repository: the frontend selection component
(`src/components/KiCadInstanceSelector.vue`), the pywebview API surface
(`src/types/pywebview.ts`), and — where the Python backend itself is not part
of the repository snapshot — models built from the specification's contracts,
each marked `Modelled from the spec:` in its doc comment.
-/

/-- A detected KiCAD instance, as declared in `src/types/pywebview.ts`
(`interface KiCadInstance`). -/
structure KiCadInstance where
  socket_path : String
  project_name : String
  display_name : String
  version : String
  project_path : String
  pcb_path : String
  schematic_path : String
  deriving Repr, DecidableEq

/-- A recent-project entry, as declared in `src/types/pywebview.ts`
(`interface RecentProject`). -/
structure RecentProject where
  path : String
  name : String
  last_opened : String
  deriving Repr, DecidableEq

/-- ASCII case-folding of a character, as JavaScript's
`String.prototype.toLowerCase` acts on the ASCII range (the only range the
component's path comparisons rely on). -/
def charToLower (c : Char) : Char :=
  if 'A' ≤ c ∧ c ≤ 'Z' then Char.ofNat (c.toNat + 32) else c

/-- Embedding of JavaScript `s.toLowerCase()` on ASCII strings. -/
def strToLower (s : String) : String :=
  String.mk (s.data.map charToLower)

/-- Embedding of `isProjectOpen` from `KiCadInstanceSelector.vue`:
`const normalizedPath = project.path.toLowerCase();
 return openProjects.value.some(op => op.project_path.toLowerCase() === normalizedPath);`
The reactive `openProjects.value` is passed explicitly. -/
def isProjectOpen (openProjects : List KiCadInstance) (project : RecentProject) : Bool :=
  let normalizedPath := strToLower project.path
  openProjects.any (fun op => strToLower op.project_path == normalizedPath)

/-- A recency entry together with the open-state flag the component computes
for it at render time. -/
structure TaggedRecent where
  entry : RecentProject
  is_open : Bool
  deriving Repr, DecidableEq

/-- The unified snapshot the component presents: the `Open in KiCAD` section
renders `openProjects` verbatim and in order (`v-for="project in openProjects"`),
and the `Recent Projects` section renders the store's entries in order, each
tagged by `isProjectOpen` (`:class="{ open: isProjectOpen(project) }"`). -/
structure ReconciledProjectView where
  open_projects : List KiCadInstance
  recent_projects : List TaggedRecent
  deriving Repr, DecidableEq

/-- The reconciled view as assembled for presentation: one `open` entry per
live instance, in the order received, and one `recent` entry per store entry,
in store order, flagged by `isProjectOpen`. -/
def reconcile (live : List KiCadInstance) (recents : List RecentProject) :
    ReconciledProjectView :=
  { open_projects := live
    recent_projects := recents.map (fun e => ⟨e, isProjectOpen live e⟩) }

/-- Separator normalization: rewrite every Windows `\` separator to `/`.
Used only to STATE the path-equivalence claims; the component itself performs
no separator normalization. -/
def sepNormalize (p : String) : String :=
  String.mk (p.data.map (fun c => if c = '\\' then '/' else c))

/-- The equivalence the specification asserts: two path strings represent the
same path when they agree up to letter case and path-separator style. -/
def samePathCaseSep (p q : String) : Bool :=
  strToLower (sepNormalize p) == strToLower (sepNormalize q)

/-- A concrete live instance used in counterexamples and witnesses. -/
def liveA : KiCadInstance :=
  { socket_path := "ipc:///tmp/kicad/api.sock"
    project_name := "a"
    display_name := "a"
    version := "9.0"
    project_path := "C:\\proj\\a"
    pcb_path := ""
    schematic_path := "" }

/-- A recent entry whose raw path uses backslash separators. -/
def recentBack : RecentProject :=
  { path := "C:\\proj\\A", name := "A", last_opened := "2025-01-01" }

/-- The same path written with forward-slash separators. -/
def recentFwd : RecentProject :=
  { path := "C:/proj/A", name := "A", last_opened := "2025-01-01" }

/-- A recent entry equal to `recentBack` up to letter case only. -/
def recentBackLc : RecentProject :=
  { path := "c:\\proj\\a", name := "A", last_opened := "2025-01-01" }

/-- Constant `REFRESH_INTERVAL_MS = 10000` (10 seconds) from
`KiCadInstanceSelector.vue`. -/
def REFRESH_INTERVAL_MS : Nat := 10000

/-- The component's timer slot `let refreshTimer: number | null = null`,
modelled as the period of the currently registered interval (`none` when no
interval is registered). -/
structure TimerState where
  refreshTimer : Option Nat
  deriving Repr, DecidableEq

/-- Function `startRefreshTimer`: clears any prior interval, then registers
`setInterval(refreshProjectsList, REFRESH_INTERVAL_MS)`. -/
def startRefreshTimer (s : TimerState) : TimerState :=
  match s.refreshTimer with
  | some _ => { refreshTimer := some REFRESH_INTERVAL_MS }
  | none => { refreshTimer := some REFRESH_INTERVAL_MS }

/-- Function `stopRefreshTimer`: clears the interval and nulls the slot. -/
def stopRefreshTimer (s : TimerState) : TimerState :=
  match s.refreshTimer with
  | some _ => { refreshTimer := none }
  | none => s

/-- The `onMounted` hook's effect on the timer slot: `startRefreshTimer()`. -/
def onMountedHook (s : TimerState) : TimerState := startRefreshTimer s

/-- The `onUnmounted` hook's effect on the timer slot: `stopRefreshTimer()`. -/
def onUnmountedHook (s : TimerState) : TimerState := stopRefreshTimer s

/-- Scheduler state of the component: the reactive `loading` flag and the
number of `refreshProjectsList` invocations currently in flight. -/
structure SchedulerState where
  loading : Bool
  inFlight : Nat
  deriving Repr, DecidableEq

/-- Events acting on the scheduler state, taken from the component:
`click` is the manual refresh button (rendered with `:disabled="loading"`,
so it fires only when `loading` is `false`); `tick` is the 10-second interval
callback (unguarded in the code); `complete` is the `finally` block of an
in-flight `refreshProjectsList` call, which sets `loading = false`. -/
inductive UiEvent
  | click
  | tick
  | complete
  deriving Repr, DecidableEq

/-- One step of the scheduler: a click on the disabled button is dropped by
the browser, an enabled click or a timer tick starts a refresh cycle
(`loading = true` on entry), and a completing cycle runs its `finally`
(`loading = false`). -/
def schedStep (s : SchedulerState) : UiEvent → SchedulerState
  | UiEvent.click =>
    match s.loading with
    | true => s
    | false => { loading := true, inFlight := s.inFlight + 1 }
  | UiEvent.tick => { loading := true, inFlight := s.inFlight + 1 }
  | UiEvent.complete => { loading := false, inFlight := s.inFlight - 1 }

/-- While a cycle is in flight (`loading = true`), a manual refresh request is
a no-op on the scheduler state. -/
theorem schedStep_click_loading (s : SchedulerState) (h : s.loading = true) :
    schedStep s UiEvent.click = s := by
  unfold schedStep
  rw [h]

/-- Any number of manual refresh requests while a cycle is in flight leave the
scheduler state unchanged. -/
theorem foldl_click_loading (n : Nat) (s : SchedulerState) (h : s.loading = true) :
    List.foldl schedStep s (List.replicate n UiEvent.click) = s := by
  induction n with
  | zero => rfl
  | succ k ih =>
    rw [List.replicate_succ, List.foldl_cons, schedStep_click_loading s h]
    exact ih

/-- C4: at-most-one-cycle-in-flight for on-demand refreshes. While a cycle is
in flight, any number of manual refresh requests leave the scheduler state
unchanged (no second concurrent cycle ever starts), and once the current
cycle completes, a burst of `m + 1` further requests starts exactly one
additional cycle. -/
theorem C4_at_most_one_cycle (s : SchedulerState) (n : Nat) (h : s.loading = true) :
    (List.foldl schedStep s (List.replicate n UiEvent.click) = s) ∧
    (∀ m, (List.foldl schedStep (schedStep s UiEvent.complete)
        (List.replicate (m + 1) UiEvent.click)).inFlight = (s.inFlight - 1) + 1) := by
  refine ⟨foldl_click_loading n s h, ?_⟩
  intro m
  rw [List.replicate_succ, List.foldl_cons]
  have hstep : schedStep (schedStep s UiEvent.complete) UiEvent.click =
      { loading := true, inFlight := (s.inFlight - 1) + 1 } := rfl
  rw [hstep, foldl_click_loading m _ rfl]

/-- C4 witness: the scheduler theorem at a concrete in-flight state, with a
burst of five requests during the cycle and three after it completes. -/
theorem C4_at_most_one_cycle_witness :
    (List.foldl schedStep ⟨true, 1⟩ (List.replicate 5 UiEvent.click) = ⟨true, 1⟩) ∧
    (List.foldl schedStep (schedStep ⟨true, 1⟩ UiEvent.complete)
        (List.replicate 3 UiEvent.click)).inFlight = 1 :=
  ⟨(C4_at_most_one_cycle ⟨true, 1⟩ 5 rfl).1,
   (C4_at_most_one_cycle ⟨true, 1⟩ 5 rfl).2 2⟩

/-- C5: the background refresh loop has a fixed period of 10 seconds
(`REFRESH_INTERVAL_MS = 10000`); mounting the component registers the interval
with exactly that period, and unmounting clears it. -/
theorem C5_fixed_refresh_period :
    REFRESH_INTERVAL_MS = 10 * 1000 ∧
    (∀ s, (onMountedHook s).refreshTimer = some REFRESH_INTERVAL_MS) ∧
    (∀ s, (onUnmountedHook s).refreshTimer = none) := by
  refine ⟨rfl, ?_, ?_⟩
  · intro s
    unfold onMountedHook startRefreshTimer
    cases h : s.refreshTimer <;> rfl
  · intro s
    unfold onUnmountedHook stopRefreshTimer
    cases h : s.refreshTimer
    · simp [h]
    · rfl

/-- Characterization of `isProjectOpen`: it returns `true` exactly when some
live instance's case-folded `project_path` equals the entry's case-folded
`path`. -/
theorem isProjectOpen_eq_true_iff (live : List KiCadInstance) (e : RecentProject) :
    isProjectOpen live e = true ↔
      ∃ i ∈ live, strToLower i.project_path = strToLower e.path := by
  unfold isProjectOpen
  simp [List.any_eq_true]

/-- C1 (counterexample): the claim fails for separator-style differences.
`recentBack` and `recentFwd` carry the same path up to separator style (and
identical other fields), yet against the live instance `liveA` the component
computes `is_open = true` for the backslash form and `is_open = false` for the
forward-slash form. -/
theorem C1_counterexample :
    samePathCaseSep recentBack.path recentFwd.path = true ∧
    recentBack.name = recentFwd.name ∧
    recentBack.last_opened = recentFwd.last_opened ∧
    isProjectOpen [liveA] recentBack = true ∧
    isProjectOpen [liveA] recentFwd = false := by
  decide

/-- C1 (amended): path normalization is an equivalence for open-state tagging
only up to letter case: for every list of live instances and any two recent
entries whose paths agree after case-folding, the computed `is_open` flag is
the same for both. (Separator style is NOT normalized by the code.) -/
theorem C1_case_fold_open_state (live : List KiCadInstance)
    (e1 e2 : RecentProject) (h : strToLower e1.path = strToLower e2.path) :
    isProjectOpen live e1 = isProjectOpen live e2 := by
  unfold isProjectOpen
  simp only [h]

/-- C1 witness: the amended theorem applied at a concrete input. -/
theorem C1_case_fold_open_state_witness :
    strToLower recentBack.path = strToLower recentBackLc.path ∧
    isProjectOpen [liveA] recentBack = isProjectOpen [liveA] recentBackLc :=
  ⟨by decide, C1_case_fold_open_state [liveA] recentBack recentBackLc (by decide)⟩

/-- C2: dual-listing invariant. If a recent entry `e` and a live instance `i`
match under the code's normalization (case-fold), then the reconciled view
lists `e` in `recent` with `is_open = true` AND lists `i` in `open`; neither
occurrence suppresses the other. -/
theorem C2_dual_listing (live : List KiCadInstance) (recents : List RecentProject)
    (i : KiCadInstance) (e : RecentProject)
    (hi : i ∈ live) (he : e ∈ recents)
    (hmatch : strToLower i.project_path = strToLower e.path) :
    (⟨e, true⟩ : TaggedRecent) ∈ (reconcile live recents).recent_projects ∧
    i ∈ (reconcile live recents).open_projects := by
  refine ⟨?_, hi⟩
  unfold reconcile
  simp only [List.mem_map]
  refine ⟨e, he, ?_⟩
  have hopen : isProjectOpen live e = true :=
    (isProjectOpen_eq_true_iff live e).mpr ⟨i, hi, hmatch⟩
  rw [hopen]

/-- C2 witness: the dual-listing theorem applied at a concrete input. -/
theorem C2_dual_listing_witness :
    (⟨recentBack, true⟩ : TaggedRecent) ∈
      (reconcile [liveA] [recentBack]).recent_projects ∧
    liveA ∈ (reconcile [liveA] [recentBack]).open_projects :=
  C2_dual_listing [liveA] [recentBack] liveA recentBack (by decide) (by decide)
    (by decide)

/-- C3: reconciliation preserves store order. The `recent` list of the
reconciled view carries exactly the store's entries in the store's own order
(no reordering by open-state), and each entry's `is_open` is `true` iff its
case-folded path equals the case-folded `project_path` of some live
instance. -/
theorem C3_store_order_preserved (live : List KiCadInstance)
    (recents : List RecentProject) :
    ((reconcile live recents).recent_projects.map TaggedRecent.entry = recents) ∧
    ∀ t ∈ (reconcile live recents).recent_projects,
      (t.is_open = true ↔
        ∃ i ∈ live, strToLower i.project_path = strToLower t.entry.path) := by
  constructor
  · unfold reconcile
    simp only [List.map_map]
    exact List.map_id'' (fun e => rfl) recents
  · intro t ht
    unfold reconcile at ht
    simp only [List.mem_map] at ht
    obtain ⟨e, _, rfl⟩ := ht
    exact isProjectOpen_eq_true_iff live e

/-- C3 witness: the order-preservation theorem applied at a concrete input. -/
theorem C3_store_order_preserved_witness :
    ((reconcile [liveA] [recentBack]).recent_projects.map TaggedRecent.entry
        = [recentBack]) ∧
    ((⟨recentBack, true⟩ : TaggedRecent).is_open = true ↔
      ∃ i ∈ [liveA],
        strToLower i.project_path = strToLower recentBack.path) :=
  ⟨(C3_store_order_preserved [liveA] [recentBack]).1,
   (C3_store_order_preserved [liveA] [recentBack]).2 ⟨recentBack, true⟩
     (by decide)⟩

/-- Result object of `get_projects_list()` as declared in
`src/types/pywebview.ts` (`interface ProjectsListResult extends ApiResult`). -/
structure ProjectsListResult where
  success : Bool
  error : Option String
  open_projects : List KiCadInstance
  recent_projects : List RecentProject
  deriving Repr, DecidableEq

/-- The component's `selectedProject` ref holds either a `KiCadInstance` or a
`RecentProject` (or null, modelled as `Option`). -/
inductive Selected
  | inst (i : KiCadInstance)
  | recent (r : RecentProject)
  deriving Repr, DecidableEq

/-- The reactive state of `KiCadInstanceSelector.vue` touched by
`refreshProjectsList`. -/
structure SelectorState where
  openProjects : List KiCadInstance
  recentProjects : List RecentProject
  selectedProject : Option Selected
  loading : Bool
  error : String
  deriving Repr, DecidableEq

/-- How one call to `refreshProjectsList` resolves: the pywebview bridge never
appeared (`waitForAPI` returned false), the awaited call threw, or
`get_projects_list` returned a result object. -/
inductive RefreshOutcome
  | apiUnavailable
  | threw (msg : String)
  | got (result : ProjectsListResult)
  deriving Repr, DecidableEq

/-- JavaScript `a || b` on an optional string: the empty string is falsy, so
`result.error || 'Failed to get projects list'` yields the default both for a
missing and for an empty `error` field. -/
def jsOrElse (a : Option String) (b : String) : String :=
  match a with
  | none => b
  | some s => if s == "" then b else s

/-- Embedding of `refreshProjectsList` from `KiCadInstanceSelector.vue`, with the awaited
environment summarized as a `RefreshOutcome`. It sets `loading = true` and
clears `error` on entry; on success it replaces the two lists and
auto-selects when exactly one open project exists and nothing is selected;
on failure it records the error message; the `finally` block sets
`loading = false`. -/
def refreshProjectsList (outcome : RefreshOutcome) (s : SelectorState) :
    SelectorState :=
  let s1 : SelectorState := { s with loading := true, error := "" }
  let s2 : SelectorState :=
    match outcome with
    | RefreshOutcome.apiUnavailable => { s1 with error := "pywebview API not available" }
    | RefreshOutcome.threw msg => { s1 with error := "Error getting projects: " ++ msg }
    | RefreshOutcome.got r =>
      match r.success with
      | true =>
        let s3 : SelectorState :=
          { s1 with openProjects := r.open_projects
                    recentProjects := r.recent_projects }
        match r.open_projects, s3.selectedProject with
        | [i], none => { s3 with selectedProject := some (Selected.inst i) }
        | _, _ => s3
      | false => { s1 with error := jsOrElse r.error "Failed to get projects list" }
  { s2 with loading := false }

/-- Default arguments of `waitForAPI(maxAttempts = 20, delayMs = 100)`. -/
def waitForAPIDefaultMaxAttempts : Nat := 20

/-- Default per-attempt sleep of `waitForAPI`, in milliseconds. -/
def waitForAPIDefaultDelayMs : Nat := 100

/-- The loop of `waitForAPI`, with the environment abstracted as the predicate
`avail i` = "window.pywebview?.api exists when the i-th check runs". Returns
the boolean result together with the number of checks performed. -/
def waitForAPIAux (avail : Nat → Bool) : Nat → Nat → Bool × Nat
  | _, 0 => (false, 0)
  | i, Nat.succ rest =>
    match avail i with
    | true => (true, 1)
    | false =>
      let r := waitForAPIAux avail (i + 1) rest
      (r.1, r.2 + 1)

/-- Embedding of `waitForAPI` from the component: up to `maxAttempts` checks starting at
check index 0. -/
def waitForAPI (avail : Nat → Bool) (maxAttempts : Nat) : Bool × Nat :=
  waitForAPIAux avail 0 maxAttempts

/-- The loop performs at most as many checks as it has attempts left. -/
theorem waitForAPIAux_checks_le (avail : Nat → Bool) (n i : Nat) :
    (waitForAPIAux avail i n).2 ≤ n := by
  induction n generalizing i with
  | zero => simp [waitForAPIAux]
  | succ k ih =>
    unfold waitForAPIAux
    cases h : avail i with
    | true => simp
    | false =>
      simpa using ih (i + 1)

/-- The loop returns `true` exactly when the bridge becomes available at some
check inside the attempt window. -/
theorem waitForAPIAux_true_iff (avail : Nat → Bool) (n i : Nat) :
    (waitForAPIAux avail i n).1 = true ↔
      ∃ j, j < n ∧ avail (i + j) = true := by
  induction n generalizing i with
  | zero => simp [waitForAPIAux]
  | succ k ih =>
    unfold waitForAPIAux
    cases h : avail i with
    | true =>
      simp only []
      constructor
      · intro _
        exact ⟨0, Nat.succ_pos k, by simpa using h⟩
      · intro _
        trivial
    | false =>
      simp only []
      rw [ih (i + 1)]
      constructor
      · rintro ⟨j, hj, ha⟩
        refine ⟨j + 1, by omega, ?_⟩
        have harr : i + (j + 1) = i + 1 + j := by omega
        rw [harr]
        exact ha
      · rintro ⟨j, hj, ha⟩
        cases j with
        | zero =>
          rw [Nat.add_zero] at ha
          rw [h] at ha
          cases ha
        | succ j2 =>
          refine ⟨j2, by omega, ?_⟩
          have harr : i + 1 + j2 = i + (j2 + 1) := by omega
          rw [harr]
          exact ha

/-- C9: `waitForAPI` is a bounded wait. Its defaults are 20 attempts and a
100ms delay; for any availability history and any attempt budget it performs
at most `maxAttempts` checks and returns `true` exactly when the bridge
appears within the window; and when the bridge never appears,
`refreshProjectsList` records the error string "pywebview API not available"
(and, being a total function of its inputs, returns without throwing). -/
theorem C9_wait_for_api_bounded (avail : Nat → Bool) (m : Nat) (s : SelectorState) :
    waitForAPIDefaultMaxAttempts = 20 ∧
    waitForAPIDefaultDelayMs = 100 ∧
    (waitForAPI avail m).2 ≤ m ∧
    ((waitForAPI avail m).1 = true ↔ ∃ j, j < m ∧ avail j = true) ∧
    (refreshProjectsList RefreshOutcome.apiUnavailable s).error =
      "pywebview API not available" := by
  refine ⟨rfl, rfl, waitForAPIAux_checks_le avail m 0, ?_, rfl⟩
  unfold waitForAPI
  rw [waitForAPIAux_true_iff]
  simp

/-- C9 witness: the bounded-wait theorem at a concrete availability history
(bridge appears at check 3), budget 20, and a concrete selector state. -/
theorem C9_wait_for_api_bounded_witness :
    waitForAPIDefaultMaxAttempts = 20 ∧
    waitForAPIDefaultDelayMs = 100 ∧
    (waitForAPI (fun i => decide (3 ≤ i)) 20).2 ≤ 20 ∧
    ((waitForAPI (fun i => decide (3 ≤ i)) 20).1 = true ↔
      ∃ j, j < 20 ∧ decide (3 ≤ j) = true) ∧
    (refreshProjectsList RefreshOutcome.apiUnavailable
        ⟨[], [], none, false, ""⟩).error = "pywebview API not available" :=
  C9_wait_for_api_bounded (fun i => decide (3 ≤ i)) 20 ⟨[], [], none, false, ""⟩

/-- C10: a failed refresh leaves the displayed snapshot unchanged. For every
prior state, if the cycle ends with the bridge unavailable, a thrown error,
or a result with `success = false`, then `refreshProjectsList` leaves
`openProjects`, `recentProjects` and `selectedProject` at their previous
values, ends with `loading = false`, and records a non-empty error message. -/
theorem C10_failure_preserves_snapshot (s : SelectorState) (outcome : RefreshOutcome)
    (h : outcome = RefreshOutcome.apiUnavailable ∨
         (∃ msg, outcome = RefreshOutcome.threw msg) ∨
         (∃ r, outcome = RefreshOutcome.got r ∧ r.success = false)) :
    (refreshProjectsList outcome s).openProjects = s.openProjects ∧
    (refreshProjectsList outcome s).recentProjects = s.recentProjects ∧
    (refreshProjectsList outcome s).selectedProject = s.selectedProject ∧
    (refreshProjectsList outcome s).loading = false ∧
    (refreshProjectsList outcome s).error ≠ "" := by
  rcases h with h | ⟨msg, h⟩ | ⟨r, h, hs⟩
  · subst h
    refine ⟨rfl, rfl, rfl, rfl, ?_⟩
    show ("pywebview API not available" : String) ≠ ""
    decide
  · subst h
    refine ⟨rfl, rfl, rfl, rfl, ?_⟩
    show ("Error getting projects: " ++ msg) ≠ ""
    intro hcontra
    have hlen : ("Error getting projects: " ++ msg).length = ("" : String).length := by
      rw [hcontra]
    rw [String.length_append] at hlen
    have h0 : ("" : String).length = 0 := rfl
    rw [h0] at hlen
    have hpos : 0 < ("Error getting projects: " : String).length := by decide
    omega
  · subst h
    obtain ⟨suc, errf, opl, rpl⟩ := r
    simp only at hs
    subst hs
    refine ⟨rfl, rfl, rfl, rfl, ?_⟩
    show jsOrElse errf "Failed to get projects list" ≠ ""
    unfold jsOrElse
    cases errf with
    | none => decide
    | some es =>
      cases hes : es == "" with
      | true => simp [hes]
      | false =>
        simp only [hes, Bool.false_eq_true, if_false]
        simpa using hes

/-- C10 witness: the snapshot-preservation theorem applied to a concrete prior
state and a `success = false` result. -/
theorem C10_failure_preserves_snapshot_witness :
    (refreshProjectsList (RefreshOutcome.got ⟨false, none, [], []⟩)
        ⟨[liveA], [recentBack], none, false, ""⟩).openProjects = [liveA] ∧
    (refreshProjectsList (RefreshOutcome.got ⟨false, none, [], []⟩)
        ⟨[liveA], [recentBack], none, false, ""⟩).recentProjects = [recentBack] ∧
    (refreshProjectsList (RefreshOutcome.got ⟨false, none, [], []⟩)
        ⟨[liveA], [recentBack], none, false, ""⟩).selectedProject = none ∧
    (refreshProjectsList (RefreshOutcome.got ⟨false, none, [], []⟩)
        ⟨[liveA], [recentBack], none, false, ""⟩).loading = false ∧
    (refreshProjectsList (RefreshOutcome.got ⟨false, none, [], []⟩)
        ⟨[liveA], [recentBack], none, false, ""⟩).error ≠ "" :=
  C10_failure_preserves_snapshot ⟨[liveA], [recentBack], none, false, ""⟩
    (RefreshOutcome.got ⟨false, none, [], []⟩)
    (Or.inr (Or.inr ⟨⟨false, none, [], []⟩, rfl, rfl⟩))

/-- Modelled from the spec: the `ProbeOutcome` sum type of §4.2. The backend
prober itself is not part of the repository snapshot; only its TypeScript
callers and `KICAD_IPC_IMPLEMENTATION.md` are. -/
inductive ProbeOutcome
  | Alive (version : String) (project_path : Option String)
  | Unreachable
  | TimedOut
  deriving Repr, DecidableEq

/-- Modelled from the spec: the observable behavior of one candidate endpoint.
`refuses = true` models a connection refusal (stale socket file with no
process behind it); `responseTime` is the time in milliseconds until the
endpoint would answer, `none` when it never answers. -/
structure CandidateBehavior where
  refuses : Bool
  responseTime : Option Nat
  version : String
  project_path : Option String
  deriving Repr, DecidableEq

/-- Modelled from the spec: the default probe timeout of §4.2 (2000ms). -/
def PROBE_DEFAULT_TIMEOUT_MS : Nat := 2000

/-- Modelled from the spec: `probe(candidate, timeout)` of §4.2. The
connection attempt is bounded by `timeout`; on expiry it is abandoned and
classified `TimedOut`. Returns the classified outcome together with the
elapsed milliseconds of the attempt. -/
def probe (c : CandidateBehavior) (timeout : Nat) : ProbeOutcome × Nat :=
  match c.refuses with
  | true => (ProbeOutcome.Unreachable, 0)
  | false =>
    match c.responseTime with
    | none => (ProbeOutcome.TimedOut, timeout)
    | some t =>
      if t ≤ timeout then (ProbeOutcome.Alive c.version c.project_path, t)
      else (ProbeOutcome.TimedOut, timeout)

/-- C6: probe timeout bound. For every candidate that accepts connections but
never responds, and every configured timeout, the probe terminates with
outcome `TimedOut` after exactly the timeout has elapsed (never left
pending); the default timeout is 2000ms, and with a 50ms timeout the
`TimedOut` outcome is returned within 100ms. -/
theorem C6_probe_timeout_bound (c : CandidateBehavior) (timeout : Nat)
    (hr : c.refuses = false) (hn : c.responseTime = none) :
    (probe c timeout).1 = ProbeOutcome.TimedOut ∧
    (probe c timeout).2 = timeout ∧
    PROBE_DEFAULT_TIMEOUT_MS = 2000 ∧
    (probe c 50).2 ≤ 100 := by
  unfold probe
  rw [hr, hn]
  refine ⟨rfl, rfl, rfl, ?_⟩
  show (50 : Nat) ≤ 100
  omega

/-- C6 witness: the timeout-bound theorem at a concrete silent candidate with
a 50ms timeout. -/
theorem C6_probe_timeout_bound_witness :
    (probe ⟨false, none, "", none⟩ 50).1 = ProbeOutcome.TimedOut ∧
    (probe ⟨false, none, "", none⟩ 50).2 = 50 ∧
    PROBE_DEFAULT_TIMEOUT_MS = 2000 ∧
    (probe ⟨false, none, "", none⟩ 50).2 ≤ 100 :=
  C6_probe_timeout_bound ⟨false, none, "", none⟩ 50 rfl rfl

/-- Modelled from the spec: path normalization of the Recency Store (§4.3):
case-fold plus separator normalization, per platform. -/
def normalizePath (p : String) : String :=
  strToLower (sepNormalize p)

/-- Modelled from the spec: one persisted record of the Recency Store —
normalized path plus last-opened timestamp. -/
structure StoreEntry where
  path : String
  last_opened : Nat
  deriving Repr, DecidableEq

/-- Modelled from the spec: `add(path)` of the Recency Store (§4.3):
normalizes the path, then either updates the existing entry's timestamp
moving it to the list head, or inserts a new entry at the head; observably,
the normalized path sits at the head with the new timestamp and any prior
occurrence is gone. -/
def addRecent (now : Nat) (rawPath : String) (store : List StoreEntry) :
    List StoreEntry :=
  let n := normalizePath rawPath
  ⟨n, now⟩ :: store.filter (fun e => e.path != n)

/-- After any single `add`, the store holds exactly one entry under the added
path's normalization. -/
theorem addRecent_count (now : Nat) (p : String) (store : List StoreEntry) :
    (addRecent now p store).countP (fun e => e.path == normalizePath p) = 1 := by
  unfold addRecent
  have hz : (store.filter (fun e => e.path != normalizePath p)).countP
      (fun e => e.path == normalizePath p) = 0 := by
    rw [List.countP_eq_zero]
    intro a ha
    rw [List.mem_filter] at ha
    simpa using ha.2
  rw [List.countP_cons_of_pos]
  · rw [hz]
  · simp

/-- Adding an entry preserves uniqueness of normalized paths. -/
theorem addRecent_pairwise (now : Nat) (p : String) (store : List StoreEntry)
    (h : store.Pairwise (fun a b => a.path ≠ b.path)) :
    (addRecent now p store).Pairwise (fun a b => a.path ≠ b.path) := by
  unfold addRecent
  refine List.Pairwise.cons ?_ (List.Pairwise.filter _ h)
  intro b hb
  rw [List.mem_filter] at hb
  have hbn : b.path ≠ normalizePath p := by simpa using hb.2
  exact fun hcontra => hbn hcontra.symm

/-- C7: the Recency Store's `add` deduplicates. Starting from any store whose
normalized paths are unique, adding the same path twice (with timestamps `t1`
then `t2`) leaves exactly one entry for that normalized path, positioned at
the head of the list with the most recent timestamp `t2`, and the store still
holds no duplicate normalized path. -/
theorem C7_add_twice_dedup (store : List StoreEntry) (t1 t2 : Nat) (p : String)
    (huniq : store.Pairwise (fun a b => a.path ≠ b.path)) :
    ((addRecent t2 p (addRecent t1 p store)).countP
        (fun e => e.path == normalizePath p) = 1) ∧
    ((addRecent t2 p (addRecent t1 p store)).head? =
        some ⟨normalizePath p, t2⟩) ∧
    ((addRecent t2 p (addRecent t1 p store)).Pairwise
        (fun a b => a.path ≠ b.path)) :=
  ⟨addRecent_count t2 p (addRecent t1 p store), rfl,
   addRecent_pairwise t2 p _ (addRecent_pairwise t1 p store huniq)⟩

/-- C7 witness: the deduplication theorem at a concrete store and path. -/
theorem C7_add_twice_dedup_witness :
    ((addRecent 9 "/proj/A" (addRecent 5 "/proj/A" [⟨"/proj/b", 1⟩])).countP
        (fun e => e.path == normalizePath "/proj/A") = 1) ∧
    ((addRecent 9 "/proj/A" (addRecent 5 "/proj/A" [⟨"/proj/b", 1⟩])).head? =
        some ⟨normalizePath "/proj/A", 9⟩) ∧
    ((addRecent 9 "/proj/A" (addRecent 5 "/proj/A" [⟨"/proj/b", 1⟩])).Pairwise
        (fun a b => a.path ≠ b.path)) :=
  C7_add_twice_dedup [⟨"/proj/b", 1⟩] 5 9 "/proj/A"
    (List.pairwise_singleton _ _)

/-- A live instance with no open project: the backend reports it with
`project_name = "No Project Open"` and an empty project path, and it must
still appear in the `open` list. -/
def liveNoProject : KiCadInstance :=
  { socket_path := "ipc:///tmp/kicad/api-1.sock"
    project_name := "No Project Open"
    display_name := "No Project Open"
    version := "9.0"
    project_path := ""
    pcb_path := ""
    schematic_path := "" }

/-- C8: reconciliation drops and merges no live instance. For every list of
live instances and every recency list, the `open` list of the reconciled view
is exactly the live-instance list: its length equals the number of live
instances, and every live instance — including one with no open project
path — appears in it. -/
theorem C8_open_one_per_live (live : List KiCadInstance)
    (recents : List RecentProject) :
    ((reconcile live recents).open_projects.length = live.length) ∧
    (∀ i ∈ live, i ∈ (reconcile live recents).open_projects) ∧
    ((reconcile live recents).open_projects = live) := by
  refine ⟨rfl, ?_, rfl⟩
  intro i hi
  exact hi

/-- C8 witness: the theorem applied with two live instances, one of which has
no open project path. -/
theorem C8_open_one_per_live_witness :
    ((reconcile [liveA, liveNoProject] [recentBack]).open_projects.length = 2) ∧
    liveNoProject ∈ (reconcile [liveA, liveNoProject] [recentBack]).open_projects :=
  ⟨(C8_open_one_per_live [liveA, liveNoProject] [recentBack]).1,
   (C8_open_one_per_live [liveA, liveNoProject] [recentBack]).2.1 liveNoProject
     (by decide)⟩
